import Mathlib

/-!
# Verification of the Alfer-AI retrieval-augmented query orchestrator

Shallow embedding of `backend/query.py`: the relevance scorer
(`calculate_relevance_score`), the passage reranker (`rerank_documents`),
the source assembler (`format_sources`) and the query orchestrator
(`perform_query`, `query_multiple_knowledge_bases`, `direct_ai_chat`).

External collaborators (the Ollama chat model, the `ollama list`
subprocess, the vector index, the embedding model, the SQLite document
table) are modelled as an `Env` record of oracles; a call that may raise a
Python exception is modelled as returning `Except String α`.  Embedding
vectors are real-valued lists; machine floats are modelled as real
numbers.
-/

namespace AlferAI

/-- A Python metadata value, as far as the query pipeline inspects it:
strings, ints, `list`s and `numpy.ndarray`s (only their length matters to
the metadata filter), or any other object (`int()` on it raises
`TypeError`). -/
inductive MetaVal where
  | str (s : String)
  | int (n : Int)
  | pylist (len : Nat)
  | ndarray (len : Nat)
  | other
  deriving Repr, DecidableEq

/-- A langchain `Document`: page content plus a metadata dict, modelled as
an association list (an empty list is a falsy dict). -/
structure Document where
  page_content : String
  metadata : List (String × MetaVal)
  deriving Repr, DecidableEq

/-- A row of the `documents` table keyed by `stored_filename`. -/
structure DocRecord where
  id : Int
  original_filename : String
  deriving Repr, DecidableEq

/-- Dict lookup `metadata.get(k)` / membership `k in metadata`. -/
def mdGet (md : List (String × MetaVal)) (k : String) : Option MetaVal :=
  (md.find? (fun kv => kv.1 == k)).map (fun kv => kv.2)

/-- Python os.path.basename: the part of the path after the last slash. -/
def basename (p : String) : String :=
  String.mk ((p.toList.splitOn '/').getLastD p.toList)

/-- Python `str.isdigit` (ASCII digits): non-empty and all digits. -/
def pyIsDigit (s : String) : Bool :=
  !s.toList.isEmpty && s.toList.all Char.isDigit

/-- The numeric value of a digit string. -/
def digitsToNat (cs : List Char) : Nat :=
  cs.foldl (fun n c => n * 10 + (c.toNat - '0'.toNat)) 0

/-- The value of an all-digit string (what `int(label)` returns there). -/
def digitVal (s : String) : Int :=
  (digitsToNat s.toList : Int)

/-- Parse an unsigned decimal numeral; `none` models a `ValueError`. -/
def parseDigits (cs : List Char) : Option Nat :=
  if !cs.isEmpty && cs.all Char.isDigit then some (digitsToNat cs) else none

/-- Strip leading and trailing whitespace. -/
def trimChars (cs : List Char) : List Char :=
  ((cs.dropWhile Char.isWhitespace).reverse.dropWhile Char.isWhitespace).reverse

/-- Python `int(s)` on a string: strip whitespace, optional sign, then
digits; `none` models a `ValueError`. -/
def pyStrToInt (s : String) : Option Int :=
  match trimChars s.toList with
  | '-' :: rest => (parseDigits rest).map (fun n => -(n : Int))
  | '+' :: rest => (parseDigits rest).map (fun n => (n : Int))
  | t => (parseDigits t).map (fun n => (n : Int))

/-- Python `int(v)` on a metadata value: identity on ints, string parse on
strings (the code first calls `.strip()`), `TypeError` (`none`) otherwise. -/
def pyToInt : MetaVal → Option Int
  | .str s => pyStrToInt s
  | .int n => some n
  | _ => none

/-- Step (1) of page resolution (query.py lines 160-168): if the metadata
has a `page_label` that is a purely numeric string, it becomes the page
number; otherwise this step yields nothing. -/
def labelPage (md : List (String × MetaVal)) : Option Int :=
  if md.isEmpty then none
  else
    match mdGet md "page_label" with
    | some (.str s) => if pyIsDigit s then some (digitVal s) else none
    | _ => none

/-- Steps (2)-(3) of page resolution (query.py lines 170-184): fall back
to the `page` metadata entry, coercing to an integer and clamping values
below 1 (and parse failures) to 1; absent metadata gives no page. -/
def resolvePageNumber (md : List (String × MetaVal)) : Option Int :=
  match labelPage md with
  | some n => some n
  | none =>
    if md.isEmpty then none
    else
      match mdGet md "page" with
      | none => none
      | some v =>
        match pyToInt v with
        | some n => some (if n < 1 then 1 else n)
        | none => some 1

/-- The raw `page_label` value echoed into the source record
(query.py line 163: assigned whenever the key is present). -/
def rawPageLabel (md : List (String × MetaVal)) : Option MetaVal :=
  if md.isEmpty then none else mdGet md "page_label"

/-! ## Stable descending sort

Python's `list.sort(key=..., reverse=True)` is a stable sort by
descending key.  We model it by stable insertion sort: an element is
inserted before the first element of strictly smaller-or-equal key, so
earlier input elements precede later ones on equal keys. -/

/-- Insert `x` into `l` (assumed sorted by descending key), before the
first element whose key is `≤ key x`. -/
def insertDesc {α β : Type} [LinearOrder β] (key : α → β) (x : α) :
    List α → List α
  | [] => [x]
  | y :: ys => if key y ≤ key x then x :: y :: ys else y :: insertDesc key x ys

/-- Stable sort by descending key. -/
def sortDesc {α β : Type} [LinearOrder β] (key : α → β) (l : List α) : List α :=
  l.foldr (insertDesc key) []

theorem insertDesc_perm {α β : Type} [LinearOrder β] (key : α → β) (x : α)
    (l : List α) : (insertDesc key x l).Perm (x :: l) := by
  induction l with
  | nil => simp [insertDesc]
  | cons y ys ih =>
    by_cases h : key y ≤ key x
    · simp [insertDesc, h]
    · simp only [insertDesc, if_neg h]
      exact ((ih.cons y).trans (List.Perm.swap x y ys))

theorem sortDesc_perm {α β : Type} [LinearOrder β] (key : α → β)
    (l : List α) : (sortDesc key l).Perm l := by
  induction l with
  | nil => simp [sortDesc]
  | cons y ys ih =>
    exact (insertDesc_perm key y (sortDesc key ys)).trans (ih.cons y)

theorem insertDesc_pairwise {α β : Type} [LinearOrder β] (key : α → β)
    (x : α) (l : List α) (hl : l.Pairwise (fun a b => key b ≤ key a)) :
    (insertDesc key x l).Pairwise (fun a b => key b ≤ key a) := by
  induction l with
  | nil => simp [insertDesc]
  | cons y ys ih =>
    rcases List.pairwise_cons.mp hl with ⟨hy, hys⟩
    by_cases h : key y ≤ key x
    · simp only [insertDesc, if_pos h]
      refine List.pairwise_cons.mpr ⟨?_, hl⟩
      intro b hb
      rcases List.mem_cons.mp hb with rfl | hb
      · exact h
      · exact le_trans (hy b hb) h
    · simp only [insertDesc, if_neg h]
      refine List.pairwise_cons.mpr ⟨?_, ih hys⟩
      intro b hb
      have := (insertDesc_perm key x ys).mem_iff.mp hb
      rcases List.mem_cons.mp this with rfl | hb'
      · exact le_of_not_le h
      · exact hy b hb'

theorem sortDesc_pairwise {α β : Type} [LinearOrder β] (key : α → β)
    (l : List α) : (sortDesc key l).Pairwise (fun a b => key b ≤ key a) := by
  induction l with
  | nil => simp [sortDesc]
  | cons y ys ih => exact insertDesc_pairwise key y (sortDesc key ys) ih

/-- Stability: inserting into a descending-sorted list does not disturb
the relative order of equal-key elements; filtering any single key value
out of the result prepends `x` exactly when `x` has that key. -/
theorem insertDesc_filter_key {α β : Type} [LinearOrder β] (key : α → β)
    (x : α) (l : List α) (hl : l.Pairwise (fun a b => key b ≤ key a))
    (c : β) :
    (insertDesc key x l).filter (fun a => key a = c) =
      ((x :: l).filter (fun a => key a = c)) := by
  induction l with
  | nil => simp [insertDesc]
  | cons y ys ih =>
    rcases List.pairwise_cons.mp hl with ⟨hy, hys⟩
    by_cases h : key y ≤ key x
    · simp [insertDesc, h]
    · have hxy : key x < key y := lt_of_not_le h
      simp only [insertDesc, if_neg h]
      have ihy := ih hys
      by_cases hxc : key x = c
      · have hyc : ¬ key y = c := by
          intro hyc
          rw [hxc, hyc] at hxy
          exact lt_irrefl c hxy
        simp only [List.filter_cons, hxc, hyc] at ihy ⊢
        simpa using ihy
      · simp only [List.filter_cons, hxc] at ihy ⊢
        by_cases hyc : key y = c
        · simp only [hyc]
          simpa using ihy
        · simp only [hyc]
          simpa using ihy

theorem sortDesc_filter_key {α β : Type} [LinearOrder β] (key : α → β)
    (l : List α) (c : β) :
    (sortDesc key l).filter (fun a => key a = c) =
      l.filter (fun a => key a = c) := by
  induction l with
  | nil => simp [sortDesc]
  | cons y ys ih =>
    have hs := sortDesc_pairwise key ys
    have h1 := insertDesc_filter_key key y (sortDesc key ys) hs c
    simp only [sortDesc, List.foldr_cons] at h1 ⊢
    rw [h1]
    simp only [List.filter_cons]
    by_cases hyc : key y = c
    · simp only [hyc]
      simp only [sortDesc] at ih
      simp [ih]
    · simp only [hyc]
      simp only [sortDesc] at ih
      simp [ih]

/-! ## Passage reranker (`rerank_documents`, query.py lines 218-255)

The Python body can only raise from the regex / Counter machinery, and the
surrounding `try` returns the input unchanged in that case; the Lean model
is a total function, so "never fails" is totality here. -/

/-- The normalization step of the reranker (lowercase, then drop every
character that is neither a word character, meaning an ASCII letter,
digit or underscore, nor whitespace). -/
def cleanText (s : String) : String :=
  String.mk ((s.toList.map Char.toLower).filter
    (fun c => c.isAlphanum || c = '_' || c.isWhitespace))

/-- Python `str.split()`: split on whitespace runs, no empty fields. -/
def pySplit (s : String) : List String :=
  ((s.toList.splitOnP Char.isWhitespace).map String.mk).filter (fun t => t ≠ "")

/-- The keyword-matching score of one passage: the sum, over the distinct
query terms, of that term's frequency among the passage's terms (a term
absent from the passage contributes 0). -/
def termScore (queryTerms : List String) (content : String) : Nat :=
  let contentTerms := pySplit (cleanText content)
  (queryTerms.map (fun t => contentTerms.count t)).sum

/-- The reranker rerank_documents: score each document by keyword overlap with the
query and stable-sort by descending score. -/
def rerank_documents (query : String) (docs : List Document) : List Document :=
  let queryTerms := (pySplit (cleanText query)).dedup
  sortDesc (fun d => termScore queryTerms d.page_content) docs

/-! ## Relevance scorer (`calculate_relevance_score`, query.py lines 82-103)

Embeddings are real vectors; `np.dot` and `np.linalg.norm` are the usual
dot product and Euclidean norm. -/

/-- Numpy dot product on two 1-D arrays. -/
def dotList (q d : List ℝ) : ℝ :=
  (List.zipWith (fun a b => a * b) q d).sum

/-- Numpy Euclidean norm. -/
noncomputable def normList (v : List ℝ) : ℝ :=
  Real.sqrt (dotList v v)

/-- The scorer calculate_relevance_score: 0 when either norm is 0, otherwise the
cosine similarity mapped by `(cos + 1) * 50` and clamped to `[0, 100]`. -/
noncomputable def calculate_relevance_score (q d : List ℝ) : ℝ :=
  let dot_product := dotList q d
  let query_norm := normList q
  let doc_norm := normList d
  if query_norm = 0 ∨ doc_norm = 0 then 0
  else
    let cosine_similarity := dot_product / (query_norm * doc_norm)
    max 0 (min 100 ((cosine_similarity + 1) * 50))

theorem dotList_self_nonneg (v : List ℝ) : 0 ≤ dotList v v := by
  unfold dotList
  induction v with
  | nil => simp
  | cons x xs ih =>
    simp only [List.zipWith_cons_cons, List.sum_cons]
    exact add_nonneg (mul_self_nonneg x) ih

theorem normList_sq (v : List ℝ) : normList v * normList v = dotList v v :=
  Real.mul_self_sqrt (dotList_self_nonneg v)

theorem normList_nonneg (v : List ℝ) : 0 ≤ normList v :=
  Real.sqrt_nonneg _

theorem dotList_neg_right (q : List ℝ) :
    dotList q (q.map (fun x => -x)) = -(dotList q q) := by
  unfold dotList
  induction q with
  | nil => simp
  | cons x xs ih =>
    simp only [List.map_cons, List.zipWith_cons_cons, List.sum_cons, ih]
    ring

theorem dotList_neg_self (q : List ℝ) :
    dotList (q.map (fun x => -x)) (q.map (fun x => -x)) = dotList q q := by
  unfold dotList
  induction q with
  | nil => simp
  | cons x xs ih =>
    simp only [List.map_cons, List.zipWith_cons_cons, List.sum_cons, ih]
    ring

/-! ## Source assembler (`format_sources`, query.py lines 105-216) -/

/-- A `ScoredSource` record as assembled by `format_sources`. -/
structure SourceInfo where
  document_name : String
  document_id : Option Int
  content : String
  content_preview : String
  relevance_score : Option ℝ
  page : Option Int
  page_label : Option MetaVal
  metadata : Option (List (String × MetaVal))
  knowledge_base_id : Option Nat := none

/-- The sort/filter key `x.get("relevance_score", 0)`; in the branches
where Python actually compares it, the score is always present, so the
default only pads the type. -/
noncomputable def scoreKey (s : SourceInfo) : ℝ :=
  s.relevance_score.getD 0

/-- The preview: the first 400 characters with an ellipsis appended when
the content is longer than 400 characters. -/
def contentPreview (content : String) : String :=
  if content.length > 400 then (content.take 400) ++ "..." else content

/-- The metadata kept on a source record (query.py lines 200-202),
with Python's operator precedence:
kept iff (the key differs from source AND the value is neither a list
nor an ndarray) OR (the value is a list of length below 20). -/
def filterMetadata (md : List (String × MetaVal)) : List (String × MetaVal) :=
  md.filter (fun kv =>
    (kv.1 ≠ "source" &&
      (match kv.2 with
       | .pylist _ => false
       | .ndarray _ => false
       | _ => true)) ||
    (match kv.2 with
     | .pylist n => n < 20
     | _ => false))

/-- The source metadata entry, as the code uses it: metadata.get of the
source key guarded by the truthiness of the dict, then by the truthiness
of the path itself (an empty string is falsy).  Non-string values (which would crash `os.path.basename`) are not
modelled and are treated as absent. -/
def docSourcePath (doc : Document) : Option String :=
  if doc.metadata.isEmpty then none
  else
    match mdGet doc.metadata "source" with
    | some (.str p) => if p = "" then none else some p
    | _ => none

/-- The relevance score of the passage at enumerate-index `i`
(query.py lines 151-154): computed only when both a query embedding and
enough document embeddings were supplied. -/
noncomputable def buildScore (qe : Option (List ℝ))
    (de : Option (List (List ℝ))) (i : Nat) : Option ℝ :=
  match qe, de with
  | some qv, some dv =>
    match dv.get? i with
    | some dvi => some (calculate_relevance_score qv dvi)
    | none => none
  | _, _ => none

/-- One iteration of the `format_sources` loop at enumerate-index `i`:
`none` models the `continue` that skips a passage whose document is not in
the `documents` table. -/
noncomputable def build_source (table : String → Option DocRecord)
    (qe : Option (List ℝ)) (de : Option (List (List ℝ)))
    (i : Nat) (doc : Document) : Option SourceInfo :=
  let namesAndId : Option (String × Option Int) :=
    match docSourcePath doc with
    | some p =>
      match table (basename p) with
      | none => none
      | some rec => some (rec.original_filename, some rec.id)
    | none => some ("Unknown Document", none)
  match namesAndId with
  | none => none
  | some (document_name, document_id) =>
    let relevance_score : Option ℝ := buildScore qe de i
    some
      { document_name := document_name
        document_id := document_id
        content := doc.page_content
        content_preview := contentPreview doc.page_content
        relevance_score := relevance_score
        page := resolvePageNumber doc.metadata
        page_label := rawPageLabel doc.metadata
        metadata :=
          if doc.metadata.isEmpty then none
          else some (filterMetadata doc.metadata) }

/-- The `for i, doc in enumerate(retrieved_docs)` loop, carrying the
enumerate index. -/
noncomputable def assembleAux (table : String → Option DocRecord)
    (qe : Option (List ℝ)) (de : Option (List (List ℝ))) :
    Nat → List Document → List SourceInfo
  | _, [] => []
  | i, doc :: rest =>
    match build_source table qe de i doc with
    | none => assembleAux table qe de (i + 1) rest
    | some s => s :: assembleAux table qe de (i + 1) rest

/-- The list `sources` right before the sort/filter post-processing. -/
noncomputable def assemble_sources (table : String → Option DocRecord)
    (docs : List Document) (qe : Option (List ℝ))
    (de : Option (List (List ℝ))) : List SourceInfo :=
  assembleAux table qe de 0 docs

/-- The source assembler format_sources (query.py lines 105-216).  The
post-processing
(lines 210-214) runs only when the first source has a non-null score; it
stable-sorts by descending score and then keeps only scores `>= 70`.
Python's `sort`/`>=` raise a `TypeError` when a `None` score meets a
number, modelled by the `.error` branch (the caller's `try` decides what
happens to it). -/
noncomputable def format_sources (table : String → Option DocRecord)
    (docs : List Document) (qe : Option (List ℝ))
    (de : Option (List (List ℝ))) : Except String (List SourceInfo) :=
  let sources := assemble_sources table docs qe de
  match sources with
  | [] => .ok []
  | s0 :: _ =>
    if s0.relevance_score.isSome then
      if sources.all (fun s => s.relevance_score.isSome) then
        .ok ((sortDesc scoreKey sources).filter
          (fun s => decide ((70 : ℝ) ≤ scoreKey s)))
      else .error "TypeError: comparison of None and float"
    else .ok sources

/-! ## Orchestrator (`perform_query`, `query_multiple_knowledge_bases`,
`direct_ai_chat`)

External collaborators are an `Env` of oracles; `Except String α` models a
call that may raise.  The `Env` is universally quantified in every
theorem, so the theorems hold for every collaborator behavior, including
every failure injection. -/

/-- A language-model handle: `llm.invoke(prompt).content`, which may raise. -/
structure LLM where
  invoke : String → Except String String

/-- What the orchestrator observes of a vector index:
whether it has a collection attribute, and the count of that collection. -/
structure VDB where
  hasCollection : Bool
  count : Nat

/-- The collaborators of `query.py`, plus the configured model name. -/
structure Env where
  llmModelName : String
  chatOllama : String → Except String LLM
  ollamaList : Except String (List String)
  kbExists : Nat → Bool
  getVectorDB : Nat → Except String VDB
  mkRetriever : Nat → Except String Unit
  retrieve : Nat → String → Nat → Except String (List Document)
  embed : String → Except String (List ℝ)
  docTable : String → Option DocRecord

/-- The success payload of a query response dictionary. -/
structure SuccessVal where
  answer : String
  sources : List SourceInfo
  queryOriginal : String
  queryKbId : Option Nat := none
  queryKbIds : Option (List Nat) := none
  note : Option String := none
  is_multi_kb_query : Bool := false
  is_direct_chat : Bool := false

/-- The discriminated query result: a success dictionary or an
error dictionary carrying an error kind and a detail text. -/
inductive QueryResult where
  | success (s : SuccessVal)
  | error (error detail : String)

/-- The source-free prompt template (query.py lines 388-395 and 618-625). -/
def directPrompt (q : String) : String :=
  "You are an AI assistant from a sweden company named Alfer-AI. " ++
  "Your task is to answer the question based on your knowledge. " ++
  "If you do not know the answer, just say you do not have enough information. " ++
  "Question: " ++ q

/-- The grounded single-source answer prompt (query.py lines 37-46). -/
def answerPrompt (context q : String) : String :=
  "You are an AI assistant from a sweden company named Alfer-AI. " ++
  "Your task is to answer the question based on the context below. " ++
  "Provide a direct, concise answer. Context: " ++ context ++
  " Question: " ++ q

/-- The multi-knowledge-base synthesis prompt (query.py lines 564-575). -/
def multiKbPrompt (context q : String) : String :=
  "You are an AI assistant from a sweden company named Alfer-AI. " ++
  "Your task is to answer the question based on the context provided " ++
  "from multiple knowledge bases. Synthesize information from all " ++
  "relevant sources to provide a comprehensive answer. Context: " ++
  context ++ " Question: " ++ q

/-- Direct dialog mode direct_ai_chat (query.py lines 604-646). -/
def direct_ai_chat (llm : LLM) (input_query : String) (kb_id : Option Nat) :
    QueryResult :=
  match llm.invoke (directPrompt input_query) with
  | .ok answer =>
    .success
      { answer := answer
        sources := []
        queryOriginal := input_query
        queryKbId := kb_id
        is_direct_chat := true }
  | .error e => .error "Answer generation failed" e

/-- Language-model initialization with its one-shot fallback
(query.py lines 281-304): try the configured model; on failure list the
installed models and retry once with the first; give up with a fatal
error if the list is empty, cannot be obtained, or the retry also fails. -/
def initLLM (env : Env) : Except (String × String) LLM :=
  match env.chatOllama env.llmModelName with
  | .ok llm => .ok llm
  | .error model_error =>
    match env.ollamaList with
    | .error fallback_error =>
      .error ("Cannot initialize language model",
        "Original error: " ++ model_error ++ ", Fallback error: " ++ fallback_error)
    | .ok [] =>
      .error ("Cannot initialize language model",
        "Specified model " ++ env.llmModelName ++
        " is not available and no other available models")
    | .ok (available_model :: _) =>
      match env.chatOllama available_model with
      | .ok llm => .ok llm
      | .error fallback_error =>
        .error ("Cannot initialize language model",
          "Original error: " ++ model_error ++ ", Fallback error: " ++ fallback_error)

/-- Evaluate a list of fallible calls left to right, stopping at the
first raise (the Python list comprehension over `embed_query`). -/
def sequenceExcept : List (Except String (List ℝ)) →
    Except String (List (List ℝ))
  | [] => .ok []
  | .error e :: _ => .error e
  | .ok v :: rest =>
    match sequenceExcept rest with
    | .ok vs => .ok (v :: vs)
    | .error e => .error e

/-- The `try` block of query.py lines 368-382: embed the query and the
top documents and format the sources, falling back to unscored sources
(where `relevant_sources = sources`) if anything in the block raises —
including the `TypeError` that line 377's `>= 70` comparison would raise
on a `None` score.  Returns `(sources, relevant_sources)`. -/
noncomputable def embed_and_format (env : Env) (input_query : String)
    (top_docs : List Document) : List SourceInfo × List SourceInfo :=
  let fallback : List SourceInfo × List SourceInfo :=
    match format_sources env.docTable top_docs none none with
    | .ok s => (s, s)
    | .error _ => ([], [])
  match env.embed input_query with
  | .error _ => fallback
  | .ok query_embedding =>
    match sequenceExcept (top_docs.map (fun d => env.embed d.page_content)) with
    | .error _ => fallback
    | .ok doc_embeddings =>
      match format_sources env.docTable top_docs (some query_embedding)
          (some doc_embeddings) with
      | .error _ => fallback
      | .ok sources =>
        if sources.all (fun s => s.relevance_score.isSome) then
          (sources,
            sources.filter (fun s => decide ((70 : ℝ) ≤ scoreKey s)))
        else fallback

/-- Single-knowledge-base mode (query.py lines 316-442), entered with a
verified non-empty query and an initialized model. -/
noncomputable def single_kb_query (env : Env) (input_query : String)
    (kb_id : Nat) (llm : LLM) : QueryResult :=
  if env.kbExists kb_id = false then
    .error "Knowledge base does not exist"
      ("Knowledge base with ID " ++ toString kb_id ++ " does not exist")
  else
    match env.getVectorDB kb_id with
    | .error _ => direct_ai_chat llm input_query (some kb_id)
    | .ok db =>
      if db.hasCollection && db.count == 0 then
        direct_ai_chat llm input_query (some kb_id)
      else
        match env.mkRetriever kb_id with
        | .error _ => direct_ai_chat llm input_query (some kb_id)
        | .ok _ =>
          match env.retrieve kb_id input_query 8 with
          | .error _ => direct_ai_chat llm input_query (some kb_id)
          | .ok retrieved_docs =>
            if retrieved_docs.isEmpty then
              direct_ai_chat llm input_query (some kb_id)
            else
              let top_docs := (rerank_documents input_query retrieved_docs).take 4
              let sr := embed_and_format env input_query top_docs
              let sources := sr.1
              let relevant_sources := sr.2
              if relevant_sources.isEmpty then
                match llm.invoke (directPrompt input_query) with
                | .ok answer =>
                  .success
                    { answer := answer
                      sources := sources
                      queryOriginal := input_query
                      queryKbId := some kb_id
                      note := some ("No highly relevant information found in " ++
                        "the knowledge base. This answer is based on the " ++
                        "AI's general knowledge.") }
                | .error e => .error "Cannot generate answer" e
              else
                let context :=
                  String.intercalate "\n\n"
                    (relevant_sources.map (fun s => s.content))
                match llm.invoke (answerPrompt context input_query) with
                | .ok answer =>
                  .success
                    { answer := answer
                      sources := sources
                      queryOriginal := input_query
                      queryKbId := some kb_id }
                | .error e => .error "Cannot generate answer" e

/-- One iteration of the multi-knowledge-base loop (query.py lines
480-545): the tagged relevant sources contributed by one knowledge base,
`[]` for every skipped or failing branch (`continue`). -/
noncomputable def processKB (env : Env) (input_query : String) (kb_id : Nat) :
    List SourceInfo :=
  if env.kbExists kb_id = false then []
  else
    match env.getVectorDB kb_id with
    | .error _ => []
    | .ok db =>
      if db.hasCollection && db.count == 0 then []
      else
        match env.mkRetriever kb_id with
        | .error _ => []
        | .ok _ =>
          match env.retrieve kb_id input_query 5 with
          | .error _ => []
          | .ok docs =>
            if docs.isEmpty then []
            else
              let top_docs := (rerank_documents input_query docs).take 3
              match env.embed input_query with
              | .error _ => []
              | .ok query_embedding =>
                match sequenceExcept
                    (top_docs.map (fun d => env.embed d.page_content)) with
                | .error _ => []
                | .ok doc_embeddings =>
                  match format_sources env.docTable top_docs
                      (some query_embedding) (some doc_embeddings) with
                  | .error _ => []
                  | .ok sources =>
                    if sources.all (fun s => s.relevance_score.isSome) then
                      let relevant_sources := sources.filter
                        (fun s => decide ((65 : ℝ) ≤ scoreKey s))
                      relevant_sources.map
                        (fun s => { s with knowledge_base_id := some kb_id })
                    else []

/-- Multi-knowledge-base mode query_multiple_knowledge_bases (query.py
lines 452-602): fan the
query out over the scope list, merge the per-knowledge-base survivors,
fall back to direct chat when nothing survives, otherwise sort the merged
list by descending score, cap it at 10 and answer from that context. -/
noncomputable def query_multiple_knowledge_bases (env : Env)
    (input_query : String) (kb_ids : List Nat) (llm : LLM) : QueryResult :=
  let all_sources := (kb_ids.map (processKB env input_query)).flatten
  if all_sources.isEmpty then
    direct_ai_chat llm input_query none
  else
    let top_sources := (sortDesc scoreKey all_sources).take 10
    let context :=
      String.intercalate "\n\n" (top_sources.map (fun s => s.content))
    match llm.invoke (multiKbPrompt context input_query) with
    | .ok answer =>
      .success
        { answer := answer
          sources := top_sources
          queryOriginal := input_query
          queryKbIds := some kb_ids
          is_multi_kb_query := true }
    | .error e => .error "Cannot generate answer" e

/-- The entry point perform_query (query.py lines 257-450): the orchestrator entry
point.  Mode selection: a non-empty scope list → multi-knowledge-base
mode; no scope → direct chat; a single id → single-knowledge-base mode. -/
noncomputable def perform_query (env : Env) (input_query : String)
    (kb_id : Option Nat) (kb_ids : Option (List Nat)) : QueryResult :=
  if input_query = "" then
    .error "Query content cannot be empty" "Please provide a valid query"
  else
    match initLLM env with
    | .error ed => .error ed.1 ed.2
    | .ok llm =>
      if (kb_ids.getD []).length > 0 then
        query_multiple_knowledge_bases env input_query (kb_ids.getD []) llm
      else
        match kb_id with
        | none => direct_ai_chat llm input_query none
        | some kb => single_kb_query env input_query kb llm

/-! ## Theorems -/

theorem normList_unit : normList [(1 : ℝ), 0] = 1 := by
  unfold normList dotList
  simp

theorem normList_unitx_ne_zero : normList [(1 : ℝ), 0] ≠ 0 := by
  rw [normList_unit]; norm_num

/-- Evaluates the scorer against `q = [1, 0]` and `d = [a, √b]` with
`a² + b = 100`, so that `‖d‖ = 10` and the cosine is `a / 10`. -/
theorem calc_score_unitx (a b : ℝ) (hb : 0 ≤ b) (hab : a * a + b = 100) :
    calculate_relevance_score [1, 0] [a, Real.sqrt b] =
      max 0 (min 100 ((a / 10 + 1) * 50)) := by
  have hdotqq : dotList [(1 : ℝ), 0] [(1 : ℝ), 0] = 1 := by
    unfold dotList; simp
  have hdotqd : dotList [(1 : ℝ), 0] [a, Real.sqrt b] = a := by
    unfold dotList; simp
  have hdotdd : dotList [a, Real.sqrt b] [a, Real.sqrt b] = 100 := by
    unfold dotList
    simp only [List.zipWith_cons_cons, List.zipWith_nil_right, List.sum_cons,
      List.sum_nil]
    rw [Real.mul_self_sqrt hb]
    linarith
  have hnq : normList [(1 : ℝ), 0] = 1 := normList_unit
  have hnd : normList [a, Real.sqrt b] = 10 := by
    unfold normList
    rw [hdotdd, show (100 : ℝ) = 10 ^ 2 by norm_num,
      Real.sqrt_sq (by norm_num : (0 : ℝ) ≤ 10)]
  unfold calculate_relevance_score
  rw [hdotqd, hnq, hnd]
  rw [if_neg (by norm_num)]
  norm_num

theorem score85 :
    calculate_relevance_score [1, 0] [7, Real.sqrt 51] = 85 := by
  rw [calc_score_unitx 7 51 (by norm_num) (by norm_num)]
  rw [show ((7 : ℝ) / 10 + 1) * 50 = 85 by norm_num]
  rw [min_eq_right (by norm_num : (85 : ℝ) ≤ 100),
    max_eq_right (by norm_num : (0 : ℝ) ≤ 85)]

theorem score60 :
    calculate_relevance_score [1, 0] [2, Real.sqrt 96] = 60 := by
  rw [calc_score_unitx 2 96 (by norm_num) (by norm_num)]
  rw [show ((2 : ℝ) / 10 + 1) * 50 = 60 by norm_num]
  rw [min_eq_right (by norm_num : (60 : ℝ) ≤ 100),
    max_eq_right (by norm_num : (0 : ℝ) ≤ 60)]

theorem score68 :
    calculate_relevance_score [1, 0] [18 / 5, Real.sqrt (2176 / 25)] = 68 := by
  rw [calc_score_unitx (18 / 5) (2176 / 25) (by norm_num) (by norm_num)]
  rw [show ((18 / 5 : ℝ) / 10 + 1) * 50 = 68 by norm_num]
  rw [min_eq_right (by norm_num : (68 : ℝ) ≤ 100),
    max_eq_right (by norm_num : (0 : ℝ) ≤ 68)]

/-- C5: the relevance score always lies in `[0, 100]`; a zero-norm vector
on either side scores 0; otherwise the score is `(cos + 1) * 50` clamped
to `[0, 100]`, where `cos` is the cosine similarity — in particular a
(nonzero) vector against itself scores 100, against its negation scores
0, and against an orthogonal (nonzero) vector scores 50. -/
theorem C5_relevance_score_spec :
    (∀ q d : List ℝ, 0 ≤ calculate_relevance_score q d ∧
      calculate_relevance_score q d ≤ 100) ∧
    (∀ q d : List ℝ, (normList q = 0 ∨ normList d = 0) →
      calculate_relevance_score q d = 0) ∧
    (∀ q d : List ℝ, normList q ≠ 0 → normList d ≠ 0 →
      calculate_relevance_score q d =
        max 0 (min 100 ((dotList q d / (normList q * normList d) + 1) * 50))) ∧
    (∀ q : List ℝ, normList q ≠ 0 → calculate_relevance_score q q = 100) ∧
    (∀ q : List ℝ, normList q ≠ 0 →
      calculate_relevance_score q (q.map (fun x => -x)) = 0) ∧
    (∀ q d : List ℝ, normList q ≠ 0 → normList d ≠ 0 → dotList q d = 0 →
      calculate_relevance_score q d = 50) := by
  have hformula : ∀ q d : List ℝ, normList q ≠ 0 → normList d ≠ 0 →
      calculate_relevance_score q d =
        max 0 (min 100 ((dotList q d / (normList q * normList d) + 1) * 50)) := by
    intro q d hq hd
    unfold calculate_relevance_score
    rw [if_neg (by push_neg; exact ⟨hq, hd⟩)]
  refine ⟨?_, ?_, hformula, ?_, ?_, ?_⟩
  · intro q d
    unfold calculate_relevance_score
    by_cases h : normList q = 0 ∨ normList d = 0
    · rw [if_pos h]; norm_num
    · rw [if_neg h]
      constructor
      · exact le_max_left 0 _
      · exact max_le (by norm_num) (min_le_left 100 _)
  · intro q d h
    unfold calculate_relevance_score
    rw [if_pos h]
  · intro q hq
    rw [hformula q q hq hq, normList_sq]
    have hd : dotList q q ≠ 0 := by
      intro h
      apply hq
      unfold normList
      rw [h, Real.sqrt_zero]
    rw [div_self hd]
    norm_num
  · intro q hq
    have hnm : normList (q.map (fun x => -x)) = normList q := by
      unfold normList
      rw [dotList_neg_self]
    rw [hformula q (q.map (fun x => -x)) hq (by rw [hnm]; exact hq)]
    rw [dotList_neg_right, hnm, normList_sq]
    have hd : dotList q q ≠ 0 := by
      intro h
      apply hq
      unfold normList
      rw [h, Real.sqrt_zero]
    rw [neg_div, div_self hd]
    norm_num
  · intro q d hq hd hdot
    rw [hformula q d hq hd, hdot]
    rw [zero_div]
    norm_num

/-- C5 witness: identical unit-like vectors score 100, evaluated at
`q = d = [1, 0]`. -/
theorem C5_relevance_score_spec_witness :
    calculate_relevance_score [(1 : ℝ), 0] [(1 : ℝ), 0] = 100 :=
  C5_relevance_score_spec.2.2.2.1 [(1 : ℝ), 0] normList_unitx_ne_zero

/-- An environment in which the configured language model (and every
fallback) is unavailable; used to observe that a whitespace query reaches
the model-initialization stage. -/
def envNoModel : Env :=
  { llmModelName := "gemma3:latest"
    chatOllama := fun _ => .error "connection refused"
    ollamaList := .ok []
    kbExists := fun _ => false
    getVectorDB := fun _ => .error "no index"
    mkRetriever := fun _ => .error "no retriever"
    retrieve := fun _ _ _ => .error "no retrieval"
    embed := fun _ => .error "no embedding"
    docTable := fun _ => none }

/-- C3 counterexample: a whitespace-only query (`" "`) is *not* rejected
by the empty-query guard (`if not input_query:` is false for `" "`); the
orchestrator proceeds to language-model initialization and, in an
environment with no model available, returns the model-initialization
error rather than the empty-query error. -/
theorem C3_whitespace_query_counterexample :
    perform_query envNoModel " " none none =
      QueryResult.error "Cannot initialize language model"
        ("Specified model gemma3:latest is not available and no other " ++
          "available models") ∧
    perform_query envNoModel " " none none ≠
      QueryResult.error "Query content cannot be empty"
        "Please provide a valid query" := by
  refine ⟨rfl, ?_⟩
  intro h
  rw [show perform_query envNoModel " " none none =
    QueryResult.error "Cannot initialize language model"
      ("Specified model gemma3:latest is not available and no other " ++
        "available models") from rfl] at h
  injection h with h1 _
  exact absurd h1 (by decide)

/-- C3 amended: only the *empty* query string is rejected by the guard;
it yields exactly the "Query content cannot be empty" error for every
collaborator behavior (hence without any external call). -/
theorem C3_empty_query_error (env : Env) (kb_id : Option Nat)
    (kb_ids : Option (List Nat)) :
    perform_query env "" kb_id kb_ids =
      QueryResult.error "Query content cannot be empty"
        "Please provide a valid query" := rfl

/-- C4: for every collaborator behavior (including every failure
injection expressible in `Env`), every query and every scope, the
orchestrator returns a well-formed result: a success value or an error
value.  Python exceptions of collaborators are modelled as `Except`
failures inside `Env`, and `perform_query` is a total function into the
two-constructor result type, so no exception crosses the boundary. -/
theorem C4_orchestrator_total (env : Env) (q : String) (kb_id : Option Nat)
    (kb_ids : Option (List Nat)) :
    (∃ s, perform_query env q kb_id kb_ids = QueryResult.success s) ∨
    (∃ e d, perform_query env q kb_id kb_ids = QueryResult.error e d) := by
  cases h : perform_query env q kb_id kb_ids with
  | success s => exact Or.inl ⟨s, rfl⟩
  | error e d => exact Or.inr ⟨e, d, rfl⟩

/-- C6: page resolution policy of the source assembler: a purely numeric
`page_label` wins; otherwise a present `page` entry is coerced to an
integer with sub-1 values and parse failures clamped to 1; with neither,
the page is null.  Concretely: label `"5"` → page 5; non-numeric label
`"3a"` with page `0` → page 1; page `-2` → page 1; no page metadata →
null. -/
theorem C6_page_resolution :
    (∀ md s, mdGet md "page_label" = some (.str s) → pyIsDigit s = true →
      md.isEmpty = false → resolvePageNumber md = some (digitVal s)) ∧
    (∀ md v, labelPage md = none → mdGet md "page" = some v →
      md.isEmpty = false →
      resolvePageNumber md =
        some (match pyToInt v with
              | some n => if n < 1 then 1 else n
              | none => 1)) ∧
    (∀ md, labelPage md = none → mdGet md "page" = none →
      resolvePageNumber md = none) ∧
    resolvePageNumber [("page_label", .str "5")] = some 5 ∧
    resolvePageNumber [("page_label", .str "3a"), ("page", .int 0)] = some 1 ∧
    resolvePageNumber [("page", .int (-2))] = some 1 ∧
    resolvePageNumber [] = none := by
  refine ⟨?_, ?_, ?_, by decide, by decide, by decide, by decide⟩
  · intro md s hlabel hdigit hne
    unfold resolvePageNumber labelPage
    rw [hlabel]
    simp [hne, hdigit]
  · intro md v hlabel hpage hne
    unfold resolvePageNumber
    rw [hlabel, hpage]
    simp only [hne, Bool.false_eq_true, if_false]
    cases hv : pyToInt v <;> simp
  · intro md hlabel hpage
    unfold resolvePageNumber
    rw [hlabel]
    by_cases hne : md.isEmpty
    · simp [hne]
    · simp [hne, hpage]

/-- C6 witness: the numeric-label branch applied at the concrete metadata
holding only a page label of "7". -/
theorem C6_page_resolution_witness :
    resolvePageNumber [("page_label", MetaVal.str "7")] = some 7 := by
  have := C6_page_resolution.1 [("page_label", MetaVal.str "7")] "7"
    (by decide) (by decide) (by decide)
  simpa [digitVal] using this

theorem mem_assembleAux {table : String → Option DocRecord}
    {qe : Option (List ℝ)} {de : Option (List (List ℝ))}
    {docs : List Document} :
    ∀ {i : Nat} {s : SourceInfo}, s ∈ assembleAux table qe de i docs →
      ∃ j doc, doc ∈ docs ∧ build_source table qe de j doc = some s := by
  induction docs with
  | nil => intro i s h; simp [assembleAux] at h
  | cons d ds ih =>
    intro i s h
    simp only [assembleAux] at h
    cases hb : build_source table qe de i d with
    | none =>
      rw [hb] at h
      obtain ⟨j, doc, hmem, hbuild⟩ := ih h
      exact ⟨j, doc, List.mem_cons_of_mem d hmem, hbuild⟩
    | some s' =>
      rw [hb] at h
      rcases List.mem_cons.mp h with rfl | h'
      · exact ⟨i, d, List.mem_cons_self d ds, hb⟩
      · obtain ⟨j, doc, hmem, hbuild⟩ := ih h'
        exact ⟨j, doc, List.mem_cons_of_mem d hmem, hbuild⟩

theorem mem_format_sources {table : String → Option DocRecord}
    {docs : List Document} {qe : Option (List ℝ)} {de : Option (List (List ℝ))}
    {l : List SourceInfo} {s : SourceInfo}
    (hok : format_sources table docs qe de = .ok l) (hs : s ∈ l) :
    s ∈ assemble_sources table docs qe de := by
  unfold format_sources at hok
  cases hsl : assemble_sources table docs qe de with
  | nil => rw [hsl] at hok; simp at hok; subst hok; simp at hs
  | cons s0 rest =>
    rw [hsl] at hok
    simp only at hok
    by_cases h0 : s0.relevance_score.isSome
    · rw [if_pos h0] at hok
      by_cases hall : (s0 :: rest).all (fun s => s.relevance_score.isSome)
      · rw [if_pos hall] at hok
        injection hok with hok
        subst hok
        have h1 := List.mem_of_mem_filter hs
        exact (sortDesc_perm scoreKey (s0 :: rest)).mem_iff.mp h1
      · rw [if_neg hall] at hok
        exact absurd hok (by simp)
    · rw [if_neg h0] at hok
      injection hok with hok
      subst hok
      exact hs

/-- C10: a retrieved passage whose stored filename has no row in the
`documents` table is dropped by the assembler (its loop iteration yields
nothing), and consequently every source in any list `format_sources`
returns comes from a passage that either had no source path at all or
whose document resolved in the table. -/
theorem C10_unresolved_documents_dropped :
    (∀ (table : String → Option DocRecord) qe de i doc p,
      docSourcePath doc = some p → table (basename p) = none →
      build_source table qe de i doc = none) ∧
    (∀ (table : String → Option DocRecord) docs qe de l s,
      format_sources table docs qe de = .ok l → s ∈ l →
      ∃ j doc, doc ∈ docs ∧ build_source table qe de j doc = some s ∧
        (docSourcePath doc = none ∨
          ∃ p r, docSourcePath doc = some p ∧ table (basename p) = some r)) := by
  have hdrop : ∀ (table : String → Option DocRecord) qe de i doc p,
      docSourcePath doc = some p → table (basename p) = none →
      build_source table qe de i doc = none := by
    intro table qe de i doc p hpath htable
    simp only [build_source, hpath, htable]
  refine ⟨hdrop, ?_⟩
  intro table docs qe de l s hok hs
  obtain ⟨j, doc, hmem, hbuild⟩ :=
    mem_assembleAux (mem_format_sources hok hs)
  refine ⟨j, doc, hmem, hbuild, ?_⟩
  cases hpath : docSourcePath doc with
  | none => exact Or.inl rfl
  | some p =>
    cases htable : table (basename p) with
    | none =>
      rw [hdrop table qe de j doc p hpath htable] at hbuild
      exact absurd hbuild (by simp)
    | some r => exact Or.inr ⟨p, r, rfl, htable⟩

/-- C10 witness: the drop branch applied at a concrete passage whose
stored filename `f.pdf` is absent from an empty document table. -/
theorem C10_unresolved_documents_dropped_witness :
    build_source (fun _ => none) none none 0
      ⟨"lorem", [("source", MetaVal.str "files/f.pdf")]⟩ = none :=
  C10_unresolved_documents_dropped.1 (fun _ => none) none none 0
    ⟨"lorem", [("source", MetaVal.str "files/f.pdf")]⟩ "files/f.pdf"
    (by decide) rfl

theorem sum_count_filter_contains (qts ct : List String) :
    (qts.map (fun t => ct.count t)).sum =
      ((qts.filter (fun t => ct.contains t)).map (fun t => ct.count t)).sum := by
  induction qts with
  | nil => simp
  | cons t ts ih =>
    by_cases h : ct.contains t
    · simp only [List.map_cons, List.sum_cons, List.filter_cons, h, if_pos]
      rw [ih]
    · have hmem : t ∉ ct := by
        intro hm
        exact h (List.elem_eq_true_of_mem hm)
      have hc : ct.count t = 0 := List.count_eq_zero.mpr hmem
      simp only [List.map_cons, List.sum_cons, List.filter_cons, h, hc]
      simpa using ih

/-- C7: the reranker (a total function, so it cannot fail) returns a
permutation of its input, stable-sorted by non-increasing keyword score;
equal scores keep the original retrieval order (filtering the output at
any fixed score value returns those passages in input order), and the
score of a passage is the sum, over the distinct normalized query terms
present in the passage, of that term's frequency in the passage. -/
theorem C7_rerank_spec :
    (∀ q docs, (rerank_documents q docs).Perm docs) ∧
    (∀ q docs, (rerank_documents q docs).Pairwise (fun a b =>
      termScore ((pySplit (cleanText q)).dedup) b.page_content ≤
      termScore ((pySplit (cleanText q)).dedup) a.page_content)) ∧
    (∀ q docs (c : Nat), (rerank_documents q docs).filter
        (fun d => termScore ((pySplit (cleanText q)).dedup) d.page_content = c) =
      docs.filter
        (fun d => termScore ((pySplit (cleanText q)).dedup) d.page_content = c)) ∧
    (∀ qts content, termScore qts content =
      ((qts.filter (fun t => (pySplit (cleanText content)).contains t)).map
        (fun t => (pySplit (cleanText content)).count t)).sum) := by
  refine ⟨?_, ?_, ?_, ?_⟩
  · intro q docs
    exact sortDesc_perm _ docs
  · intro q docs
    exact sortDesc_pairwise
      (fun d => termScore ((pySplit (cleanText q)).dedup) d.page_content) docs
  · intro q docs c
    exact sortDesc_filter_key
      (fun d => termScore ((pySplit (cleanText q)).dedup) d.page_content) docs c
  · intro qts content
    unfold termScore
    exact sum_count_filter_contains qts (pySplit (cleanText content))

theorem build_source_rel_score {table : String → Option DocRecord}
    {qe : Option (List ℝ)} {de : Option (List (List ℝ))}
    {i : Nat} {doc : Document} {s : SourceInfo}
    (hb : build_source table qe de i doc = some s) :
    s.relevance_score = buildScore qe de i := by
  unfold build_source at hb
  cases hpath : docSourcePath doc with
  | none =>
    simp only [hpath] at hb
    injection hb with hb
    subst hb
    rfl
  | some p =>
    simp only [hpath] at hb
    cases ht : table (basename p) with
    | none => simp [ht] at hb
    | some r =>
      simp only [ht] at hb
      injection hb with hb
      subst hb
      rfl

theorem buildScore_missing {qe : Option (List ℝ)}
    {de : Option (List (List ℝ))} (h : qe = none ∨ de = none) (i : Nat) :
    buildScore qe de i = none := by
  rcases h with rfl | rfl
  · rfl
  · cases qe <;> rfl

theorem buildScore_get_none {qv : List ℝ} {dv : List (List ℝ)} {i : Nat}
    (h : dv.get? i = none) : buildScore (some qv) (some dv) i = none := by
  simp only [buildScore, h]

theorem buildScore_none_get {qv : List ℝ} {dv : List (List ℝ)} {i : Nat}
    (h : buildScore (some qv) (some dv) i = none) : dv.get? i = none := by
  simp only [buildScore] at h
  cases hg : dv.get? i with
  | none => rfl
  | some dvi => rw [hg] at h; exact absurd h (by simp)

theorem assembleAux_score_none_of_missing {table : String → Option DocRecord}
    {qe : Option (List ℝ)} {de : Option (List (List ℝ))}
    (h : qe = none ∨ de = none) :
    ∀ (docs : List Document) (i : Nat),
      ∀ s ∈ assembleAux table qe de i docs, s.relevance_score = none := by
  intro docs i s hs
  obtain ⟨j, doc, _, hb⟩ := mem_assembleAux hs
  rw [build_source_rel_score hb]
  exact buildScore_missing h j

theorem assembleAux_score_none_beyond {table : String → Option DocRecord}
    (qv : List ℝ) (dv : List (List ℝ)) :
    ∀ (docs : List Document) (i : Nat), dv.length ≤ i →
      ∀ s ∈ assembleAux table (some qv) (some dv) i docs,
        s.relevance_score = none := by
  intro docs
  induction docs with
  | nil => intro i hi s hs; simp [assembleAux] at hs
  | cons d ds ih =>
    intro i hi s hs
    simp only [assembleAux] at hs
    cases hb : build_source table (some qv) (some dv) i d with
    | none =>
      rw [hb] at hs
      exact ih (i + 1) (le_trans hi (Nat.le_succ i)) s hs
    | some s' =>
      rw [hb] at hs
      rcases List.mem_cons.mp hs with rfl | h'
      · rw [build_source_rel_score hb]
        exact buildScore_get_none (List.get?_eq_none.mpr hi)
      · exact ih (i + 1) (le_trans hi (Nat.le_succ i)) s h'

theorem assembleAux_head_none_all_none {table : String → Option DocRecord}
    (qv : List ℝ) (dv : List (List ℝ)) :
    ∀ (docs : List Document) (i : Nat) (s0 : SourceInfo)
      (rest : List SourceInfo),
      assembleAux table (some qv) (some dv) i docs = s0 :: rest →
      s0.relevance_score = none →
      ∀ s ∈ assembleAux table (some qv) (some dv) i docs,
        s.relevance_score = none := by
  intro docs
  induction docs with
  | nil => intro i s0 rest h; simp [assembleAux] at h
  | cons d ds ih =>
    intro i s0 rest heq h0 s hs
    simp only [assembleAux] at heq hs
    cases hb : build_source table (some qv) (some dv) i d with
    | none =>
      rw [hb] at heq hs
      exact ih (i + 1) s0 rest heq h0 s hs
    | some s' =>
      rw [hb] at heq hs
      injection heq with h1 _
      subst h1
      have hsc := build_source_rel_score hb
      rw [h0] at hsc
      have hnone : dv.get? i = none := buildScore_none_get hsc.symm
      have hlen : dv.length ≤ i := List.get?_eq_none.mp hnone
      rcases List.mem_cons.mp hs with rfl | h'
      · exact h0
      · exact assembleAux_score_none_beyond qv dv ds (i + 1)
          (le_trans hlen (Nat.le_succ i)) s h'

theorem format_sources_ok_pairwise {table : String → Option DocRecord}
    {docs : List Document} {qe : Option (List ℝ)}
    {de : Option (List (List ℝ))} {l : List SourceInfo}
    (hok : format_sources table docs qe de = .ok l)
    (hsome : ∃ s ∈ l, s.relevance_score.isSome) :
    l.Pairwise (fun a b => scoreKey b ≤ scoreKey a) := by
  unfold format_sources at hok
  cases hsl : assemble_sources table docs qe de with
  | nil =>
    rw [hsl] at hok
    simp only at hok
    injection hok with hok
    subst hok
    simp at hsome
  | cons s0 rest =>
    rw [hsl] at hok
    simp only at hok
    by_cases h0 : s0.relevance_score.isSome
    · rw [if_pos h0] at hok
      by_cases hall : (s0 :: rest).all (fun s => s.relevance_score.isSome)
      · rw [if_pos hall] at hok
        injection hok with hok
        subst hok
        exact (sortDesc_pairwise scoreKey (s0 :: rest)).sublist
          (List.filter_sublist _)
      · rw [if_neg hall] at hok
        exact absurd hok (by simp)
    · rw [if_neg h0] at hok
      injection hok with hok
      subst hok
      obtain ⟨s, hmem, hs⟩ := hsome
      have h0' : s0.relevance_score = none := by
        cases hx : s0.relevance_score with
        | none => rfl
        | some v => rw [hx] at h0; simp at h0
      have hall_none : ∀ s ∈ assembleAux table qe de 0 docs,
          s.relevance_score = none := by
        cases qe with
        | none =>
          exact assembleAux_score_none_of_missing (Or.inl rfl) docs 0
        | some qv =>
          cases de with
          | none =>
            exact assembleAux_score_none_of_missing (Or.inr rfl) docs 0
          | some dv =>
            exact assembleAux_head_none_all_none qv dv docs 0 s0 rest hsl h0'
      have := hall_none s (by rw [show assembleAux table qe de 0 docs =
        assemble_sources table docs qe de from rfl, hsl]; exact hmem)
      rw [this] at hs
      simp at hs

/-- C8: every source list `format_sources` hands back that carries at
least one non-null score is sorted by non-increasing score, and in
multi-knowledge-base mode every successful result carries a merged source
list that is sorted by non-increasing score and capped at 10 entries
(the same capped list the generation context is built from, per the
definition of `query_multiple_knowledge_bases`). -/
theorem C8_sorted_and_capped :
    (∀ (table : String → Option DocRecord) docs qe de l,
      format_sources table docs qe de = .ok l →
      (∃ s ∈ l, s.relevance_score.isSome) →
      l.Pairwise (fun a b => scoreKey b ≤ scoreKey a)) ∧
    (∀ (env : Env) (q : String) (kb_ids : List Nat) (llm : LLM)
      (s : SuccessVal),
      query_multiple_knowledge_bases env q kb_ids llm = .success s →
      s.sources.Pairwise (fun a b => scoreKey b ≤ scoreKey a) ∧
        s.sources.length ≤ 10) := by
  refine ⟨fun table docs qe de l hok hsome =>
    format_sources_ok_pairwise hok hsome, ?_⟩
  intro env q kb_ids llm s h
  simp only [query_multiple_knowledge_bases] at h
  split at h
  · unfold direct_ai_chat at h
    split at h
    · injection h with h
      subst h
      simp
    · exact absurd h (by simp)
  · split at h
    · injection h with h
      subst h
      refine ⟨?_, ?_⟩
      · exact (sortDesc_pairwise scoreKey _).sublist (List.take_sublist _ _)
      · simp
    · exact absurd h (by simp)

/-- C8 witness: the multi-knowledge-base conjunct applied to the concrete
empty-scope environment, whose successful result is the direct-chat value
with an empty (hence sorted, under-cap) source list. -/
theorem C8_sorted_and_capped_witness :
    (SuccessVal.sources
      { answer := "ANS", sources := [], queryOriginal := "q",
        is_direct_chat := true }).Pairwise
        (fun a b => scoreKey b ≤ scoreKey a) ∧
    (SuccessVal.sources
      { answer := "ANS", sources := [], queryOriginal := "q",
        is_direct_chat := true }).length ≤ 10 :=
  C8_sorted_and_capped.2
    { llmModelName := "m"
      chatOllama := fun _ => .ok ⟨fun _ => .ok "ANS"⟩
      ollamaList := .ok []
      kbExists := fun _ => false
      getVectorDB := fun _ => .error "none"
      mkRetriever := fun _ => .error "none"
      retrieve := fun _ _ _ => .error "none"
      embed := fun _ => .error "none"
      docTable := fun _ => none }
    "q" [] ⟨fun _ => .ok "ANS"⟩
    { answer := "ANS", sources := [], queryOriginal := "q",
      is_direct_chat := true } rfl

/-- C9: in single-knowledge-base mode, when the knowledge base exists but
its vector index either reports zero stored vectors or cannot be opened,
the orchestrator answers in direct-chat mode: `is_direct_chat` is true,
`sources` is empty, the knowledge-base id is carried only in the query
echo, and no retrieval happens — the result is the same for *every*
behavior of the retriever oracles. -/
theorem C9_empty_index_degrades_to_direct_chat (env : Env) (q : String)
    (kb : Nat) (llm : LLM) (ans : String)
    (hq : ¬ q = "")
    (hinit : initLLM env = .ok llm)
    (hkb : env.kbExists kb = true)
    (hdb : env.getVectorDB kb = .ok ⟨true, 0⟩ ∨
      ∃ e, env.getVectorDB kb = .error e)
    (hans : llm.invoke (directPrompt q) = .ok ans) :
    ∀ (retr : Nat → String → Nat → Except String (List Document))
      (mkr : Nat → Except String Unit),
      perform_query { env with retrieve := retr, mkRetriever := mkr }
          q (some kb) none =
        QueryResult.success
          { answer := ans, sources := [], queryOriginal := q,
            queryKbId := some kb, is_direct_chat := true } := by
  intro retr mkr
  have hinit' : initLLM { env with retrieve := retr, mkRetriever := mkr } =
      Except.ok llm := hinit
  have hdirect : direct_ai_chat llm q (some kb) =
      QueryResult.success
        { answer := ans, sources := [], queryOriginal := q,
          queryKbId := some kb, is_direct_chat := true } := by
    unfold direct_ai_chat
    rw [hans]
  simp only [perform_query, hq, if_false, hinit', single_kb_query]
  simp only [Option.getD, List.length_nil, gt_iff_lt, lt_self_iff_false,
    if_false]
  simp only [hkb, Bool.true_eq_false, if_false]
  rcases hdb with hdb | ⟨e, hdb⟩
  · simp only [hdb]
    simpa using hdirect
  · simp only [hdb]
    exact hdirect

/-- A concrete environment for the C9 witness: knowledge base 7 exists,
its vector index reports zero vectors, and the model answers "ANS". -/
def envEmptyIndex : Env :=
  { llmModelName := "m"
    chatOllama := fun _ => .ok ⟨fun _ => .ok "ANS"⟩
    ollamaList := .ok []
    kbExists := fun _ => true
    getVectorDB := fun _ => .ok ⟨true, 0⟩
    mkRetriever := fun _ => .error "unused"
    retrieve := fun _ _ _ => .error "unused"
    embed := fun _ => .error "unused"
    docTable := fun _ => none }

/-- C9 witness: the degradation applied at query `"hi"`, knowledge base 7,
with failing retriever oracles. -/
theorem C9_empty_index_degrades_to_direct_chat_witness :
    perform_query
        { envEmptyIndex with
            retrieve := fun _ _ _ => .error "down",
            mkRetriever := fun _ => .error "down" } "hi" (some 7) none =
      QueryResult.success
        { answer := "ANS", sources := [], queryOriginal := "hi",
          queryKbId := some 7, is_direct_chat := true } :=
  C9_empty_index_degrades_to_direct_chat envEmptyIndex "hi" 7
    ⟨fun _ => .ok "ANS"⟩ "ANS" (by decide) rfl rfl (Or.inl rfl) rfl
    (fun _ _ _ => .error "down") (fun _ => .error "down")

/-! ## Concrete retrieval fixtures

Two resolvable passages whose embeddings give relevance scores 85 and 60
against the query embedding `[1, 0]`, and one whose embedding gives 68. -/

def docAlpha : Document := ⟨"alpha", [("source", .str "files/a.pdf")]⟩

def docBeta : Document := ⟨"beta", [("source", .str "files/b.pdf")]⟩

def tableC1 : String → Option DocRecord := fun name =>
  if name = "a.pdf" then some ⟨1, "A.pdf"⟩
  else if name = "b.pdf" then some ⟨2, "B.pdf"⟩
  else none

/-- The query embedding of the fixtures. -/
noncomputable def qeFix : List ℝ := [1, 0]

/-- A document embedding at cosine 0.7 to `qeFix`: score 85. -/
noncomputable def vec85 : List ℝ := [7, Real.sqrt 51]

/-- A document embedding at cosine 0.2 to `qeFix`: score 60. -/
noncomputable def vec60 : List ℝ := [2, Real.sqrt 96]

/-- A document embedding at cosine 0.36 to `qeFix`: score 68. -/
noncomputable def vec68 : List ℝ := [18 / 5, Real.sqrt (2176 / 25)]

noncomputable def srcAlpha : SourceInfo :=
  { document_name := "A.pdf"
    document_id := some 1
    content := "alpha"
    content_preview := "alpha"
    relevance_score := some (calculate_relevance_score qeFix vec85)
    page := none
    page_label := none
    metadata := some [] }

noncomputable def srcBeta : SourceInfo :=
  { document_name := "B.pdf"
    document_id := some 2
    content := "beta"
    content_preview := "beta"
    relevance_score := some (calculate_relevance_score qeFix vec60)
    page := none
    page_label := none
    metadata := some [] }

theorem scoreKey_srcAlpha : scoreKey srcAlpha = 85 := by
  simp only [scoreKey, srcAlpha, Option.getD_some]
  simp only [qeFix, vec85]
  exact score85

theorem scoreKey_srcBeta : scoreKey srcBeta = 60 := by
  simp only [scoreKey, srcBeta, Option.getD_some]
  simp only [qeFix, vec60]
  exact score60

theorem assembleC1 :
    assemble_sources tableC1 [docAlpha, docBeta] (some qeFix)
      (some [vec85, vec60]) = [srcAlpha, srcBeta] := rfl

theorem sortC1 :
    sortDesc scoreKey [srcAlpha, srcBeta] = [srcAlpha, srcBeta] := by
  unfold sortDesc
  simp only [List.foldr_cons, List.foldr_nil]
  simp only [insertDesc]
  rw [if_pos]
  rw [scoreKey_srcAlpha, scoreKey_srcBeta]
  norm_num

theorem filterC1 :
    List.filter (fun s => decide ((70 : ℝ) ≤ scoreKey s))
      [srcAlpha, srcBeta] = [srcAlpha] := by
  have h1 : (decide ((70 : ℝ) ≤ scoreKey srcAlpha)) = true := by
    rw [scoreKey_srcAlpha]
    simp only [decide_eq_true_eq]
    norm_num
  have h2 : (decide ((70 : ℝ) ≤ scoreKey srcBeta)) = false := by
    rw [scoreKey_srcBeta]
    simp only [decide_eq_false_iff_not]
    norm_num
  simp only [List.filter_cons, List.filter_nil, h1, h2, if_true, if_false]
  simp

/-- C1 evaluated at a counter-input to the spec's Scenario C: two
resolvable passages scored 85 and 60.  The assembler's own ≥ 70 filter
(query.py line 214) removes the 60-scored source, so the `sources` list
the orchestrator returns to the caller contains *only* the 85-scored
entry — contradicting the comments at the call sites (query.py lines 402
and 435, which read: include all sources even if they are low relevance)
stating
the behavior the spec describes. -/
theorem C1_low_relevance_source_dropped :
    calculate_relevance_score qeFix vec85 = 85 ∧
    calculate_relevance_score qeFix vec60 = 60 ∧
    format_sources tableC1 [docAlpha, docBeta] (some qeFix)
      (some [vec85, vec60]) = .ok [srcAlpha] := by
  refine ⟨?_, ?_, ?_⟩
  · simp only [qeFix, vec85]; exact score85
  · simp only [qeFix, vec60]; exact score60
  · have hhead : srcAlpha.relevance_score.isSome = true := rfl
    have hall : ([srcAlpha, srcBeta].all
        (fun s => s.relevance_score.isSome)) = true := rfl
    simp only [format_sources, assembleC1, hhead, hall, if_true]
    rw [sortC1, filterC1]

def docGamma : Document := ⟨"gamma", [("source", .str "files/c.pdf")]⟩

def tableC2 : String → Option DocRecord := fun name =>
  if name = "c.pdf" then some ⟨3, "C.pdf"⟩ else none

noncomputable def srcGamma : SourceInfo :=
  { document_name := "C.pdf"
    document_id := some 3
    content := "gamma"
    content_preview := "gamma"
    relevance_score := some (calculate_relevance_score qeFix vec68)
    page := none
    page_label := none
    metadata := some [] }

def llmStub : LLM := ⟨fun _ => .ok "ANS"⟩

/-- An environment with one knowledge base whose single retrieved passage
embeds at relevance 68 against the query embedding. -/
noncomputable def envKb68 : Env :=
  { llmModelName := "m"
    chatOllama := fun _ => .ok llmStub
    ollamaList := .ok []
    kbExists := fun _ => true
    getVectorDB := fun _ => .ok ⟨true, 3⟩
    mkRetriever := fun _ => .ok ()
    retrieve := fun _ _ _ => .ok [docGamma]
    embed := fun s => if s = "qq" then .ok qeFix else .ok vec68
    docTable := tableC2 }

theorem scoreKey_srcGamma : scoreKey srcGamma = 68 := by
  simp only [scoreKey, srcGamma, Option.getD_some]
  simp only [qeFix, vec68]
  exact score68

theorem assembleC2 :
    assemble_sources tableC2 [docGamma] (some qeFix) (some [vec68]) =
      [srcGamma] := rfl

theorem format_sourcesC2 :
    format_sources tableC2 [docGamma] (some qeFix) (some [vec68]) =
      .ok [] := by
  have hhead : srcGamma.relevance_score.isSome = true := rfl
  have hall : ([srcGamma].all (fun s => s.relevance_score.isSome)) = true := rfl
  have hsort : sortDesc scoreKey [srcGamma] = [srcGamma] := rfl
  have hfilter : List.filter (fun s => decide ((70 : ℝ) ≤ scoreKey s))
      [srcGamma] = [] := by
    have h1 : (decide ((70 : ℝ) ≤ scoreKey srcGamma)) = false := by
      rw [scoreKey_srcGamma]
      simp only [decide_eq_false_iff_not]
      norm_num
    simp only [List.filter_cons, List.filter_nil, h1, if_false]
    simp
  simp only [format_sources, assembleC2, hhead, hall, if_true]
  rw [hsort, hfilter]

theorem processKB_envKb68 : processKB envKb68 "qq" 1 = [] := by
  rw [show processKB envKb68 "qq" 1 =
    (match format_sources tableC2 [docGamma] (some qeFix) (some [vec68]) with
     | .error _ => []
     | .ok sources =>
       if sources.all (fun s => s.relevance_score.isSome) then
         (sources.filter (fun s => decide ((65 : ℝ) ≤ scoreKey s))).map
           (fun s => { s with knowledge_base_id := some 1 })
       else []) from rfl]
  rw [format_sourcesC2]
  simp

/-- C2 evaluated at a counter-input: a knowledge base contributes a
passage whose relevance score is 68, which is ≥ 65 — yet the merged
multi-knowledge-base source list stays empty and the orchestrator falls
back to direct chat, because the assembler already filtered the source
out at its own ≥ 70 threshold (query.py line 214) before the ≥ 65
multi-mode filter (line 524) could see it.  The line-523 comment
"slightly lower threshold for multi-knowledge base query" documents the
intended behavior, which matches the claim. -/
theorem C2_multi_threshold_ineffective :
    calculate_relevance_score qeFix vec68 = 68 ∧
    ((65 : ℝ) ≤ 68) ∧
    format_sources tableC2 [docGamma] (some qeFix) (some [vec68]) =
      .ok [] ∧
    query_multiple_knowledge_bases envKb68 "qq" [1] llmStub =
      .success { answer := "ANS", sources := [], queryOriginal := "qq",
                 is_direct_chat := true } := by
  refine ⟨?_, by norm_num, format_sourcesC2, ?_⟩
  · simp only [qeFix, vec68]; exact score68
  · have hflat : ([1].map (processKB envKb68 "qq")).flatten = [] := by
      simp [processKB_envKb68]
    simp only [query_multiple_knowledge_bases, hflat]
    simp [direct_ai_chat, llmStub]

end AlferAI
